import Mathlib

/-!
Shallow embedding of `src/app/src/main/cpp/native-lib.cpp` from the
repository `Alpha3427Q/Voice_test_app`.

The C++ file keeps two process-wide globals,

  bool g_model_loaded = false;
  std::string g_loaded_model_path;

and exposes four JNI entry points: `nativeLoadModel`, `nativeUnloadModel`,
`nativeGenerateText`, `nativeIsModelLoaded`.  We model the globals as an
explicit `SessionState` record that every operation takes and returns, a
`jstring` argument (which can be null) as `Option String`, and the
file-system probe `std::ifstream(...).good()` as an environment parameter
`fileGood : String → Bool`.  The C++ code works on byte strings; since the
two separator characters `/` and `\` are one-byte ASCII characters, the
character-level Lean model computes the same labels and the same tails on
any input.
-/

namespace VoiceTestApp

/-- The two globals of `native-lib.cpp` (lines 6–9): `g_model_loaded` and
`g_loaded_model_path`. -/
structure SessionState where
  g_model_loaded : Bool
  g_loaded_model_path : String
  deriving DecidableEq, Repr

/-- The state both globals have at process start, after `nativeUnloadModel`,
and after any failed `nativeLoadModel`: flag `false`, path cleared. -/
def emptyState : SessionState :=
  { g_model_loaded := false, g_loaded_model_path := "" }

/-- `Java_com_alice_ai_data_offline_LlamaJniBridge_nativeLoadModel`
(lines 11–44).  A null `jstring` (`model_path == nullptr`) and an empty
path (`raw_path[0] == '\0'`) both clear the globals and return `JNI_FALSE`;
a path for which `std::ifstream(raw_path).good()` fails does the same;
otherwise the path is stored, the flag is set and `JNI_TRUE` is returned.
The previous global state is never read. -/
def nativeLoadModel (fileGood : String → Bool) (_s : SessionState)
    (model_path : Option String) : SessionState × Bool :=
  match model_path with
  | none => (emptyState, false)
  | some raw_path =>
    if raw_path = "" then
      (emptyState, false)
    else if !(fileGood raw_path) then
      (emptyState, false)
    else
      ({ g_model_loaded := true, g_loaded_model_path := raw_path }, true)

/-- `Java_com_alice_ai_data_offline_LlamaJniBridge_nativeUnloadModel`
(lines 46–53): sets `g_model_loaded = false` and clears
`g_loaded_model_path`, unconditionally. -/
def nativeUnloadModel (_s : SessionState) : SessionState :=
  emptyState

/-- Membership of a character in the `find_last_of` search set `"/\\"`. -/
def isSep (c : Char) : Bool :=
  c = '/' || c = '\\'

/-- `g_loaded_model_path.find_last_of("/\\")` (line 78): the index of the
last occurrence of `/` or `\` in the string, `none` for `std::string::npos`.
A match in the tail of a cons is one position further to the right than any
match at the head, so it wins. -/
def find_last_of_sep : List Char → Option Nat
  | [] => none
  | c :: cs =>
    match find_last_of_sep cs with
    | some i => some (i + 1)
    | none => if isSep c then some 0 else none

/-- `model_label` (lines 78–82): the whole path when `find_last_of` returns
`npos`, otherwise `substr(separator_index + 1)`. -/
def modelLabel (path : String) : String :=
  match find_last_of_sep path.data with
  | none => path
  | some i => ⟨path.data.drop (i + 1)⟩

/-- `tail` (lines 73–76): the prompt itself, unless it is longer than 512
characters, in which case `substr(size() - 512)`, i.e. its last 512
characters. -/
def promptTail (p : String) : String :=
  if p.data.length > 512 then ⟨p.data.drop (p.data.length - 512)⟩ else p

/-- The fixed string returned by `nativeGenerateText` when no model is
loaded (line 64). -/
def sentinelResponse : String := "Offline model is not loaded."

/-- `Java_com_alice_ai_data_offline_LlamaJniBridge_nativeGenerateText`
(lines 55–89).  When `g_model_loaded` is false it returns the sentinel
string.  Otherwise a null prompt becomes the empty string (line 67), the
prompt is truncated to its last 512 characters, and the response is
`"Offline native response (" << model_label << "): " << tail`.  The
`max_tokens` and `temperature` parameters are never read (lines 60–61).
The globals are read but never written, so the state is returned
unchanged. -/
def nativeGenerateText (s : SessionState) (prompt : Option String)
    (_max_tokens : Int) (_temperature : Float) : SessionState × String :=
  if !s.g_model_loaded then
    (s, sentinelResponse)
  else
    let prompt_text := prompt.getD ""
    let tail := promptTail prompt_text
    (s, "Offline native response (" ++ modelLabel s.g_loaded_model_path
          ++ "): " ++ tail)

/-- `Java_com_alice_ai_data_offline_LlamaJniBridge_nativeIsModelLoaded`
(lines 91–97): `g_model_loaded ? JNI_TRUE : JNI_FALSE`, reading but never
writing the globals. -/
def nativeIsModelLoaded (s : SessionState) : SessionState × Bool :=
  (s, s.g_model_loaded)

/-- The spec's wording for the model label, formalised independently of the
code: the "final path segment" of the identifier is the trailing run of
non-separator characters, i.e. the reversal of the longest separator-free
prefix of the reversed string (and the whole identifier when it has no
separator). -/
def specFinalSegment (path : String) : String :=
  ⟨(path.data.reverse.takeWhile (fun c => !(isSep c))).reverse⟩

/-- The spec's session invariant: `loaded_identifier` is non-empty iff
`is_loaded` is true. -/
def sessionInv (s : SessionState) : Prop :=
  s.g_loaded_model_path ≠ "" ↔ s.g_model_loaded = true

/-! ### Helper lemmas -/

theorem find_last_of_sep_lt_length {cs : List Char} {i : Nat}
    (h : find_last_of_sep cs = some i) : i < cs.length := by
  induction cs generalizing i with
  | nil => simp [find_last_of_sep] at h
  | cons c cs ih =>
    rw [find_last_of_sep] at h
    cases hcs : find_last_of_sep cs with
    | some j =>
      rw [hcs] at h
      cases h
      exact Nat.succ_lt_succ (ih hcs)
    | none =>
      rw [hcs] at h
      by_cases hc : isSep c
      · simp only [hc, if_true, Option.some.injEq] at h
        simp only [List.length_cons]
        omega
      · simp [hc] at h

theorem find_last_of_sep_append_singleton (l : List Char) (a : Char) :
    find_last_of_sep (l ++ [a]) =
      if isSep a then some l.length else find_last_of_sep l := by
  induction l with
  | nil =>
    by_cases ha : isSep a <;> simp [find_last_of_sep, ha]
  | cons c t ih =>
    rw [List.cons_append, find_last_of_sep, ih]
    by_cases ha : isSep a
    · simp [ha, List.length_cons]
    · simp only [ha, Bool.false_eq_true, if_false]
      rw [find_last_of_sep]

/-- List-level form of the label computation: taking the suffix after the
last separator index (or the whole list when there is none) equals
reversing the separator-free prefix of the reversed list. -/
theorem label_data_eq_spec (cs : List Char) :
    cs.drop ((find_last_of_sep cs).elim 0 (fun i => i + 1)) =
    (cs.reverse.takeWhile (fun c => !(isSep c))).reverse := by
  induction cs using List.reverseRecOn with
  | nil => simp
  | append_singleton l a ih =>
    rw [find_last_of_sep_append_singleton, List.reverse_append,
      List.reverse_singleton, List.singleton_append, List.takeWhile_cons]
    by_cases ha : isSep a
    · rw [if_pos ha]
      simp only [ha, Bool.not_true, Bool.false_eq_true, if_false,
        List.reverse_nil, Option.elim_some]
      exact List.drop_eq_nil_of_le (by simp)
    · rw [if_neg ha]
      simp only [ha, Bool.not_false, if_true, List.reverse_cons]
      cases hl : find_last_of_sep l with
      | none =>
        rw [hl] at ih
        rw [Option.elim_none, List.drop_zero] at ih ⊢
        rw [← ih]
      | some i =>
        rw [hl] at ih
        rw [Option.elim_some] at ih ⊢
        have hi : i < l.length := find_last_of_sep_lt_length hl
        rw [List.drop_append_of_le_length (by omega), ih]

/-- The code's label (last `find_last_of` index, then `substr`) computes the
spec's "final path segment". -/
theorem modelLabel_eq_specFinalSegment (path : String) :
    modelLabel path = specFinalSegment path := by
  have h := label_data_eq_spec path.data
  unfold modelLabel specFinalSegment
  cases hcs : find_last_of_sep path.data with
  | none =>
    rw [hcs, Option.elim_none, List.drop_zero] at h
    simp only [hcs]
    exact congrArg String.mk h
  | some i =>
    rw [hcs, Option.elim_some] at h
    simp only [hcs]
    exact congrArg String.mk h

theorem nativeGenerateText_fst (s : SessionState) (prompt : Option String)
    (mt : Int) (tp : Float) : (nativeGenerateText s prompt mt tp).1 = s := by
  unfold nativeGenerateText
  by_cases h : s.g_model_loaded <;> simp [h]

theorem sessionInv_emptyState : sessionInv emptyState := by
  simp [sessionInv, emptyState]

theorem sessionInv_load (fileGood : String → Bool) (s : SessionState)
    (inp : Option String) : sessionInv (nativeLoadModel fileGood s inp).1 := by
  cases inp with
  | none => exact sessionInv_emptyState
  | some p =>
    by_cases hp : p = ""
    · simp only [nativeLoadModel, if_pos hp]
      exact sessionInv_emptyState
    · by_cases hf : fileGood p
      · simp only [nativeLoadModel, if_neg hp, hf, Bool.not_true,
          Bool.false_eq_true, if_false]
        simp [sessionInv, hp]
      · simp only [nativeLoadModel, if_neg hp, Bool.not_eq_true] at *
        simp only [nativeLoadModel, if_neg hp, hf, Bool.not_false, if_true]
        exact sessionInv_emptyState

/-! ### Claim theorems -/

/-- Claim C1: the session invariant — `g_loaded_model_path` is non-empty iff
`g_model_loaded` is true — is preserved by every operation
(`nativeLoadModel`, `nativeUnloadModel`, `nativeGenerateText`,
`nativeIsModelLoaded`) from any state satisfying it, for every input. -/
theorem C1_invariant_preserved (fileGood : String → Bool) (s : SessionState)
    (inp : Option String) (prompt : Option String) (mt : Int) (tp : Float)
    (h : sessionInv s) :
    sessionInv (nativeLoadModel fileGood s inp).1 ∧
    sessionInv (nativeUnloadModel s) ∧
    sessionInv (nativeGenerateText s prompt mt tp).1 ∧
    sessionInv (nativeIsModelLoaded s).1 :=
  ⟨sessionInv_load fileGood s inp, sessionInv_emptyState,
    by rw [nativeGenerateText_fst]; exact h, h⟩

/-- Witness for C1 at a concrete loaded state and concrete inputs. -/
theorem C1_invariant_preserved_witness :
    sessionInv ⟨true, "/m.bin"⟩ ∧
    (sessionInv (nativeLoadModel (fun _ => true) ⟨true, "/m.bin"⟩ (some "/n.bin")).1 ∧
     sessionInv (nativeUnloadModel ⟨true, "/m.bin"⟩) ∧
     sessionInv (nativeGenerateText ⟨true, "/m.bin"⟩ (some "hi") 3 1.0).1 ∧
     sessionInv (nativeIsModelLoaded ⟨true, "/m.bin"⟩).1) :=
  ⟨by unfold sessionInv; decide,
   C1_invariant_preserved (fun _ => true) ⟨true, "/m.bin"⟩ (some "/n.bin")
     (some "hi") 3 1.0 (by unfold sessionInv; decide)⟩

/-- Claim C2: for every session state, loading with a null or empty path
returns false and leaves the session in the empty state, so
`nativeIsModelLoaded` afterwards returns false. -/
theorem C2_load_null_or_empty (fileGood : String → Bool) (s : SessionState) :
    nativeLoadModel fileGood s none = (emptyState, false) ∧
    nativeLoadModel fileGood s (some "") = (emptyState, false) ∧
    (nativeIsModelLoaded (nativeLoadModel fileGood s none).1).2 = false ∧
    (nativeIsModelLoaded (nativeLoadModel fileGood s (some "")).1).2 = false := by
  refine ⟨rfl, ?_, rfl, ?_⟩ <;> simp [nativeLoadModel, nativeIsModelLoaded, emptyState]

/-- Claim C3: loading a non-empty path whose file probe fails returns false
and resets the session to the empty state, from any prior state — in
particular a failed load while a model is loaded unloads it. -/
theorem C3_load_unreadable (fileGood : String → Bool) (s : SessionState)
    (p : String) (hp : p ≠ "") (hf : fileGood p = false) :
    nativeLoadModel fileGood s (some p) = (emptyState, false) := by
  simp [nativeLoadModel, hp, hf]

/-- Witness for C3: a failed load from a loaded state lands in the empty
state. -/
theorem C3_load_unreadable_witness :
    ("/missing.bin" : String) ≠ "" ∧
    (fun _ : String => false) "/missing.bin" = false ∧
    nativeLoadModel (fun _ : String => false) ⟨true, "/old.bin"⟩
      (some "/missing.bin") = (emptyState, false) :=
  ⟨by decide, rfl,
   C3_load_unreadable (fun _ : String => false) ⟨true, "/old.bin"⟩
     "/missing.bin" (by decide) rfl⟩

/-- Claim C4: loading a non-empty path whose file probe succeeds stores the
path, sets the flag and returns true, overwriting any previous state; a
subsequent `nativeGenerateText` is built from the new path's label only
(the prior state `s` does not occur in the result). -/
theorem C4_load_success_overwrites (fileGood : String → Bool)
    (s : SessionState) (p : String) (prompt : String) (mt : Int) (tp : Float)
    (hp : p ≠ "") (hf : fileGood p = true) :
    nativeLoadModel fileGood s (some p) =
      ({ g_model_loaded := true, g_loaded_model_path := p }, true) ∧
    (nativeGenerateText (nativeLoadModel fileGood s (some p)).1
        (some prompt) mt tp).2 =
      "Offline native response (" ++ modelLabel p ++ "): " ++ promptTail prompt := by
  have hload : nativeLoadModel fileGood s (some p) =
      ({ g_model_loaded := true, g_loaded_model_path := p }, true) := by
    simp [nativeLoadModel, hp, hf]
  refine ⟨hload, ?_⟩
  rw [hload]
  simp [nativeGenerateText]

/-- Witness for C4: loading model B while model A is loaded; the generated
text shows B's label, not A's. -/
theorem C4_load_success_overwrites_witness :
    ("/data/models/B.bin" : String) ≠ "" ∧
    nativeLoadModel (fun _ : String => true) ⟨true, "/data/models/A.bin"⟩
      (some "/data/models/B.bin") =
      ({ g_model_loaded := true, g_loaded_model_path := "/data/models/B.bin" }, true) ∧
    (nativeGenerateText
        (nativeLoadModel (fun _ : String => true) ⟨true, "/data/models/A.bin"⟩
          (some "/data/models/B.bin")).1 (some "hello") 10 0.5).2 =
      "Offline native response (B.bin): hello" := by
  have h := C4_load_success_overwrites (fun _ : String => true)
    ⟨true, "/data/models/A.bin"⟩ "/data/models/B.bin" "hello" 10 0.5
    (by decide) rfl
  exact ⟨by decide, h.1, by rw [h.2]; decide⟩

/-- Claim C5: `nativeUnloadModel` resets any state to the empty state and is
idempotent; after it, `nativeIsModelLoaded` returns false and
`nativeGenerateText` returns the sentinel response. -/
theorem C5_unload_idempotent (s : SessionState) (prompt : Option String)
    (mt : Int) (tp : Float) :
    nativeUnloadModel (nativeUnloadModel s) = nativeUnloadModel s ∧
    nativeUnloadModel s = emptyState ∧
    (nativeIsModelLoaded (nativeUnloadModel s)).2 = false ∧
    (nativeGenerateText (nativeUnloadModel s) prompt mt tp).2 = sentinelResponse :=
  ⟨rfl, rfl, rfl, rfl⟩

/-- Claim C6: whenever the flag is false, `nativeGenerateText` returns
exactly the sentinel string, for every prompt, `max_tokens` and
`temperature`; being a total function it cannot fail or throw. -/
theorem C6_sentinel_when_not_loaded (s : SessionState) (prompt : Option String)
    (mt : Int) (tp : Float) (h : s.g_model_loaded = false) :
    (nativeGenerateText s prompt mt tp).2 = sentinelResponse := by
  simp [nativeGenerateText, h]

/-- Witness for C6 at a concrete unloaded state. -/
theorem C6_sentinel_when_not_loaded_witness :
    (SessionState.mk false "").g_model_loaded = false ∧
    (nativeGenerateText ⟨false, ""⟩ (some "anything") 99 0.7).2 = sentinelResponse :=
  ⟨rfl, C6_sentinel_when_not_loaded ⟨false, ""⟩ (some "anything") 99 0.7 rfl⟩

/-- Claim C7: whenever the flag is true, `nativeGenerateText` returns the
response built from the model label — the final path segment of the loaded
identifier (the whole identifier when it has no `/` or `\` separator) —
and the prompt truncated to its last 512 characters when longer. -/
theorem C7_generate_loaded (s : SessionState) (prompt : String) (mt : Int)
    (tp : Float) (h : s.g_model_loaded = true) :
    (nativeGenerateText s (some prompt) mt tp).2 =
      "Offline native response (" ++ modelLabel s.g_loaded_model_path
        ++ "): " ++ promptTail prompt ∧
    modelLabel s.g_loaded_model_path = specFinalSegment s.g_loaded_model_path ∧
    (prompt.data.length ≤ 512 → promptTail prompt = prompt) ∧
    (512 < prompt.data.length →
      (promptTail prompt).data = prompt.data.drop (prompt.data.length - 512) ∧
      (promptTail prompt).data.length = 512) := by
  refine ⟨?_, modelLabel_eq_specFinalSegment _, ?_, ?_⟩
  · simp [nativeGenerateText, h]
  · intro hle
    unfold promptTail
    rw [if_neg (by omega)]
  · intro hgt
    have hh : promptTail prompt = ⟨prompt.data.drop (prompt.data.length - 512)⟩ := by
      unfold promptTail
      rw [if_pos (by omega)]
    constructor
    · rw [hh]
    · rw [hh]
      simp only [List.length_drop]
      omega

/-- Witness for C7: after loading `"/data/models/foo.bin"`, the output of
`generate("hello", 10, 0.5)` carries the label `foo.bin`. -/
theorem C7_generate_loaded_witness :
    (SessionState.mk true "/data/models/foo.bin").g_model_loaded = true ∧
    (nativeGenerateText ⟨true, "/data/models/foo.bin"⟩ (some "hello") 10 0.5).2 =
      "Offline native response (" ++ modelLabel "/data/models/foo.bin"
        ++ "): " ++ promptTail "hello" ∧
    modelLabel "/data/models/foo.bin" = "foo.bin" ∧
    (nativeGenerateText ⟨true, "/data/models/foo.bin"⟩ (some "hello") 10 0.5).2 =
      "Offline native response (foo.bin): hello" := by
  have h := C7_generate_loaded ⟨true, "/data/models/foo.bin"⟩ "hello" 10 0.5 rfl
  exact ⟨rfl, h.1, by decide, by decide⟩

/-- Claim C8: `nativeGenerateText` ignores `max_tokens` and `temperature` —
two calls differing only in those arguments return identical results. -/
theorem C8_output_independent_of_sampling (s : SessionState)
    (prompt : Option String) (mt mt' : Int) (tp tp' : Float) :
    nativeGenerateText s prompt mt tp = nativeGenerateText s prompt mt' tp' :=
  rfl

/-- Claim C9: `nativeGenerateText` is a total function (no exceptions), and
a null prompt behaves exactly like the empty-string prompt. -/
theorem C9_null_prompt_as_empty (s : SessionState) (mt : Int) (tp : Float) :
    nativeGenerateText s none mt tp = nativeGenerateText s (some "") mt tp :=
  rfl

/-- Claim C10: `nativeGenerateText` and `nativeIsModelLoaded` never write
the globals — the state component of their result is the input state. -/
theorem C10_read_only_queries (s : SessionState) (prompt : Option String)
    (mt : Int) (tp : Float) :
    (nativeGenerateText s prompt mt tp).1 = s ∧ (nativeIsModelLoaded s).1 = s :=
  ⟨nativeGenerateText_fst s prompt mt tp, rfl⟩

end VoiceTestApp
